import Mathlib

/-!
Verification of the ComfyUI Flux Canny gateway (`src/main.py`).

The service is a thin HTTP facade: it instantiates a workflow template
with the caller's prompt, submits it to the render backend, polls the
backend's history endpoint until an output image appears, fetches the
image bytes and streams them back.  We embed the Python functions as
pure Lean functions: JSON values become an inductive type, the mutation
of the deep-copied template becomes a functional update, the network is
an oracle (`Backend`) mapping each outbound request to the response the
backend would give, and every endpoint returns both the list of backend
calls it performed and its result (`Except` for `raise HTTPException`).
-/

namespace Fastimg

/-- JSON values, as produced by `json.load`.  Objects keep their fields in
insertion order, exactly as Python `dict`s do. -/
inductive JVal where
  | null : JVal
  | bool (b : Bool) : JVal
  | num (n : Int) : JVal
  | str (s : String) : JVal
  | arr (xs : List JVal) : JVal
  | obj (fields : List (String × JVal)) : JVal

/-- `l[k]` on a Python dict rendered as an insertion-ordered association
list: the first binding of `k`, if any. -/
def lookupA {α : Type} (l : List (String × α)) (k : String) : Option α :=
  match l with
  | [] => none
  | (k1, v) :: rest => if k1 = k then some v else lookupA rest k

/-- `l[k] = v` on a Python dict rendered as an association list: replace
the first binding of `k` in place, or append a new binding at the end
(Python dicts keep insertion order). -/
def setIn {α : Type} (l : List (String × α)) (k : String) (v : α) : List (String × α) :=
  match l with
  | [] => [(k, v)]
  | (k1, v1) :: rest => if k1 = k then (k1, v) :: rest else (k1, v1) :: setIn rest k v

/-- The fixed default persona text (`DEFAULT_SYSTEM_PROMPT` in `main.py`). -/
def DEFAULT_SYSTEM_PROMPT : String :=
  "You are JADE-CAD v6, an expert AI jade-design engine trained on 2.3M annotated carving blueprints, 480k historical rubbings, 52k gemmological reports, and 8k CNC tool-path datasets. You output only manufacturable, culture-accurate, cost-aware jade carving designs that honor traditional Chinese jade art while meeting modern production standards. Specialize in classical motifs, auspicious symbols, and technical precision. Based on your expertise, please create a design that precisely matches the following user requirements:"

/-- Python truthiness of an optional string argument (`if system_prompt:`,
`if image_filename:`): `None` and the empty string are falsy. -/
def truthy (o : Option String) : Bool :=
  match o with
  | none => false
  | some s => s != ""

/-- The combined prompt computed in `build_workflow`
(`f"{system_prompt}\n\n{prompt}"`, falling back to the default persona
when `system_prompt` is falsy). -/
def combined_prompt (system_prompt : Option String) (prompt : String) : String :=
  if truthy system_prompt then system_prompt.getD "" ++ "\n\n" ++ prompt
  else DEFAULT_SYSTEM_PROMPT ++ "\n\n" ++ prompt

/-- `wf[nodeId]["inputs"][field] = v`: look the node up, look its
`inputs` object up, and rebuild the enclosing objects around the updated
field.  `none` models the `KeyError`/`TypeError` Python would raise when
the template lacks the expected structure (a startup-time configuration
error per the spec). -/
def setNestedInput (wf : JVal) (nodeId field : String) (v : JVal) : Option JVal :=
  match wf with
  | .obj nodes =>
    match lookupA nodes nodeId with
    | some (.obj nodeFields) =>
      match lookupA nodeFields "inputs" with
      | some (.obj inputFields) =>
        some (.obj (setIn nodes nodeId
          (.obj (setIn nodeFields "inputs" (.obj (setIn inputFields field v))))))
      | _ => none
    | _ => none
  | _ => none

/-- `build_workflow` from `main.py`.  The Python function first deep
copies the template (`json.loads(json.dumps(WORKFLOW_TEMPLATE))`), which
on JSON values is the identity, so the update below operates on a copy
and the shared template value is never mutated.  Node "23" receives the
combined prompt text; node "17" receives the image filename when that
argument is truthy. -/
def build_workflow (template : JVal) (prompt : String)
    (image_filename : Option String) (system_prompt : Option String) :
    Option JVal :=
  match setNestedInput template "23" "text" (.str (combined_prompt system_prompt prompt)) with
  | none => none
  | some wf2 =>
    if truthy image_filename then
      setNestedInput wf2 "17" "image" (.str (image_filename.getD ""))
    else some wf2

/-- Observation helper: the string stored at `wf["23"]["inputs"]["text"]`
of a workflow returned by `build_workflow` (the text the builder
injected). -/
def injectedText (w : Option JVal) : Option String :=
  w.bind fun wf =>
    match wf with
    | .obj nodes =>
      match lookupA nodes "23" with
      | some (.obj nodeFields) =>
        match lookupA nodeFields "inputs" with
        | some (.obj inputFields) =>
          match lookupA inputFields "text" with
          | some (.str s) => some s
          | _ => none
        | _ => none
      | _ => none
    | _ => none

/-- `raise HTTPException(code, detail)`. -/
structure HTTPError where
  code : Nat
  detail : String
deriving DecidableEq, Repr

/-- One image entry of a node's `images` list in a history snapshot.
`filename` is accessed with `img["filename"]` (required); `subfolder`
and `type` with `.get`, so they carry defaults when absent. -/
structure Img where
  filename : String
  subfolder : Option String
  type : Option String
deriving DecidableEq, Repr

/-- The descriptor dict built by `wait_for_image_meta` from an image
entry. -/
structure ImageMeta where
  filename : String
  subfolder : String
  type : String
deriving DecidableEq, Repr

/-- `{"filename": img["filename"], "subfolder": img.get("subfolder", ""),
"type": img.get("type", "output")}`. -/
def image_to_meta (img : Img) : ImageMeta :=
  { filename := img.filename
    subfolder := img.subfolder.getD ""
    type := img.type.getD "output" }

/-- What one `GET /history/{prompt_id}` tick yields, after the JSON
decoding done in `wait_for_image_meta`:
* `badStatus` — HTTP status other than 200;
* `noEntry` — body empty/falsy or the handle absent from it;
* `entry outputs` — the handle's `outputs` mapping (`.get("outputs", {})`
  applied, and `.get("images", [])` applied per node), node order being
  the backend's reported insertion order. -/
inductive PollResp where
  | badStatus : PollResp
  | noEntry : PollResp
  | entry (outputs : List (String × List Img)) : PollResp

/-- The second loop of `wait_for_image_meta`: iterate over all nodes in
reported order and return the first image found. -/
def firstImage (outputs : List (String × List Img)) : Option Img :=
  match outputs with
  | [] => none
  | (_, imgs) :: rest =>
    match imgs with
    | img :: _ => some img
    | [] => firstImage rest

/-- The body of one successful-status tick of `wait_for_image_meta`:
if node "9" is present, try its `images` first and return its first
image; otherwise (node "9" absent, or present with an empty image list —
the first `for` loop then falls through) return the first image of the
first node, in reported order, that has one. -/
def checkOutputs (outputs : List (String × List Img)) : Option ImageMeta :=
  match lookupA outputs "9" with
  | some (img :: _) => some (image_to_meta img)
  | _ => (firstImage outputs).map image_to_meta

/-- What one tick of the poll loop concludes from the backend's
response: a descriptor, or nothing (bad status, handle absent, or no
images yet — all treated as "not ready yet"). -/
def tickResult (r : PollResp) : Option ImageMeta :=
  match r with
  | .badStatus => none
  | .noEntry => none
  | .entry outputs => checkOutputs outputs

instance {ε α : Type} [DecidableEq ε] [DecidableEq α] : DecidableEq (Except ε α) := fun x y =>
  match x, y with
  | .error a, .error b =>
    if h : a = b then .isTrue (congrArg Except.error h)
    else .isFalse (fun hc => h (Except.error.inj hc))
  | .ok a, .ok b =>
    if h : a = b then .isTrue (congrArg Except.ok h)
    else .isFalse (fun hc => h (Except.ok.inj hc))
  | .error _, .ok _ => .isFalse (fun hc => Except.noConfusion hc)
  | .ok _, .error _ => .isFalse (fun hc => Except.noConfusion hc)

/-- Outcome of the poll loop, instrumented with its observable cost:
how many `GET /history/...` requests were issued and how many
`asyncio.sleep(1)` calls (seconds slept) were performed. -/
structure PollOutcome where
  requests : Nat
  sleeps : Nat
  result : Except HTTPError ImageMeta
deriving DecidableEq, Repr

/-- The timeout raised after the loop: `HTTPException(502, ...)`. -/
def pollTimeoutError : HTTPError :=
  ⟨502, "ComfyUI 超时，未拿到输出图片"⟩

/-- The `for _ in range(timeout)` loop of `wait_for_image_meta`, with
`h t` the backend's response to the request made on tick `t`.  A tick
that yields a descriptor returns it at once (no sleep); every other
tick sleeps one second and continues; an exhausted budget raises the
timeout error. -/
def pollLoop (h : Nat → PollResp) : Nat → Nat → PollOutcome
  | _, 0 => ⟨0, 0, .error pollTimeoutError⟩
  | tick, fuel + 1 =>
    match tickResult (h tick) with
    | some m => ⟨1, 0, .ok m⟩
    | none =>
      let r := pollLoop h (tick + 1) fuel
      ⟨r.requests + 1, r.sleeps + 1, r.result⟩

/-- `wait_for_image_meta` from `main.py`: poll the history endpoint for
at most `timeout` ticks.  The Python parameter defaults to 120, and both
handlers call it without an explicit timeout, so every call site below
passes 120. -/
def wait_for_image_meta (h : Nat → PollResp) (timeout : Nat) : PollOutcome :=
  pollLoop h 0 timeout

/-- Response to `POST /prompt`.  On success the body carries the job
handle (`data["prompt_id"]`); on failure only status and raw text are
read. -/
structure SubmitResp where
  status : Nat
  text : String
  prompt_id : String

/-- Response to `POST /upload/image`.  `name` is read with
`result.get('name', filename)`, hence optional. -/
structure UploadResp where
  status : Nat
  text : String
  name : Option String

/-- Response to `GET /view?filename&subfolder&type`. -/
structure ViewResp where
  status : Nat
  text : String
  body : List Nat

/-- The single part added to the multipart form in
`upload_image_to_comfyui`:
`data.add_field('image', image_bytes, filename=filename,
content_type='image/jpeg')`. -/
structure FormPart where
  field : String
  filename : String
  content_type : String
  content : List Nat

/-- One outbound request to the render backend, as recorded in a
request's trace. -/
inductive BackendCall where
  | submitPrompt (wf : JVal)
  | historyGet (prompt_id : String)
  | uploadImage (part : FormPart)
  | viewGet (filename subfolder type : String)

/-- The render backend as an oracle: the response each outbound request
of the current inbound request would receive.  `history pid t` is the
response to the `t`-th poll tick for handle `pid`. -/
structure Backend where
  submit : SubmitResp
  history : String → Nat → PollResp
  upload : UploadResp
  view : String → String → String → ViewResp

/-- The extension allow-list of `upload_image_to_comfyui`
(suffixes include the leading dot, as `Path(...).suffix` produces). -/
def allowed_extensions : List String :=
  [".jpg", ".jpeg", ".png", ".bmp", ".tiff", ".webp"]

/-- `s.lower()` on a Python string (ASCII case folding, which is all the
extension allow-list comparison exercises). -/
def lowerAscii (s : String) : String :=
  ⟨s.data.map Char.toLower⟩

/-- `c in s` on a Python string. -/
def containsChar (s : String) (c : Char) : Bool :=
  s.data.contains c

/-- `s.startswith(pre)` on a Python string. -/
def startsWithStr (s pre : String) : Bool :=
  pre.data.isPrefixOf s.data

/-- Split a character list at every occurrence of the separator `c`
(occurrences are dropped; `n` separators yield `n + 1` pieces). -/
def splitOnChar (c : Char) (cs : List Char) : List (List Char) :=
  match cs with
  | [] => [[]]
  | a :: rest =>
    match splitOnChar c rest with
    | [] => if a == c then [[], []] else [[a]]
    | x :: xs => if a == c then [] :: x :: xs else (a :: x) :: xs

/-- The final path component, as `pathlib.Path(...).name` computes it
(the path separator splits the string; empty and "." components are
dropped). -/
def pathName (filename : String) : String :=
  let comps := (splitOnChar (Char.ofNat 47) filename.data).map String.mk
  (comps.filter (fun c => c != "" && c != ".")).getLastD ""

/-- `pathlib.Path(filename).suffix`: the part of the final component
from its last dot onward, provided that dot is neither the first nor
the last character of the component; otherwise the empty string. -/
def pathSuffix (filename : String) : String :=
  let name := pathName filename
  let cs := name.data
  match cs.reverse.findIdx? (fun c => c == Char.ofNat 46) with
  | none => ""
  | some ridx =>
    let i := cs.length - 1 - ridx
    if 0 < i ∧ i < cs.length - 1 then String.mk (cs.drop i) else ""

/-- `upload_image_to_comfyui` from `main.py`: validate the filename
extension (case-insensitively, against the allow-list) before any
network traffic, then POST the multipart form — whose part always
declares `content_type='image/jpeg'` — and return the backend-assigned
name (`result.get('name', filename)`).  The first component of the
result is the list of backend calls performed. -/
def upload_image_to_comfyui (be : Backend) (image_bytes : List Nat) (filename : String) :
    List BackendCall × Except HTTPError String :=
  let file_ext := lowerAscii (pathSuffix filename)
  if file_ext ∉ allowed_extensions then
    ([], .error ⟨400, "不支持的文件类型: " ++ file_ext⟩)
  else
    let part : FormPart := ⟨"image", filename, "image/jpeg", image_bytes⟩
    let resp := be.upload
    if resp.status ≠ 200 then
      ([.uploadImage part], .error ⟨502, "上传图像失败: " ++ resp.text⟩)
    else
      ([.uploadImage part], .ok (resp.name.getD filename))

/-- `download_image_bytes` from `main.py`: one `GET /view` with the
descriptor's fields as query parameters; non-200 raises 502 with the
backend's text, otherwise the raw bytes are returned. -/
def download_image_bytes (be : Backend) (meta : ImageMeta) :
    List BackendCall × Except HTTPError (List Nat) :=
  let resp := be.view meta.filename meta.subfolder meta.type
  let call := BackendCall.viewGet meta.filename meta.subfolder meta.type
  if resp.status ≠ 200 then
    ([call], .error ⟨502, "下载图片失败: " ++ resp.text⟩)
  else
    ([call], .ok resp.body)

/-- The HTTP response the endpoint hands back on success
(`fastapi.Response` defaults to status 200). -/
structure ApiResponse where
  status : Nat
  media_type : String
  content_disposition : String
  body : List Nat
deriving DecidableEq, Repr

/-- The submit → poll → fetch → respond tail shared verbatim by the
`txt2img` and `img2img` handlers: POST the workflow to `/prompt`
(non-200 raises 502 and aborts the chain), poll with
`wait_for_image_meta` at its default budget, fetch the bytes, and wrap
them in a 200 `image/png` response with an
`inline; filename="..."` Content-Disposition header.  The generated
`client_id` (a fresh UUID) does not influence any observable behaviour
and is omitted. -/
def runJob (be : Backend) (wf : JVal) : List BackendCall × Except HTTPError ApiResponse :=
  let s := be.submit
  if s.status ≠ 200 then
    ([.submitPrompt wf], .error ⟨502, "ComfyUI 提交失败: " ++ s.text⟩)
  else
    let po := wait_for_image_meta (be.history s.prompt_id) 120
    let htrace := List.replicate po.requests (BackendCall.historyGet s.prompt_id)
    match po.result with
    | .error e => (.submitPrompt wf :: htrace, .error e)
    | .ok meta =>
      let dl := download_image_bytes be meta
      match dl.2 with
      | .error e => (.submitPrompt wf :: (htrace ++ dl.1), .error e)
      | .ok bytes =>
        (.submitPrompt wf :: (htrace ++ dl.1),
         .ok ⟨200, "image/png", "inline; filename=\"" ++ meta.filename ++ "\"", bytes⟩)

/-- The `POST /txt2img` handler.  `none` models the unhandled exception
Python would raise if the template lacked the expected nodes (a
startup-time configuration error per the spec). -/
def txt2img (template : JVal) (be : Backend) (prompt : String)
    (system_prompt : Option String) :
    Option (List BackendCall × Except HTTPError ApiResponse) :=
  (build_workflow template prompt none system_prompt).map (runJob be)

/-- The multipart file received by `/img2img`. -/
structure UploadFile where
  filename : String
  content_type : String
  content : List Nat

/-- The `POST /img2img` handler: content-type check, filename/extension
presence check, staging upload, then the same submit → poll → fetch
tail as `txt2img` with the backend-assigned filename written into node
"17". -/
def img2img (template : JVal) (be : Backend) (prompt : String) (image : UploadFile)
    (system_prompt : Option String) :
    Option (List BackendCall × Except HTTPError ApiResponse) :=
  if ¬ startsWithStr image.content_type "image/" then
    some ([], .error ⟨400, "文件必须是图像类型"⟩)
  else if image.filename = "" ∨ ¬ containsChar image.filename (Char.ofNat 46) then
    some ([], .error ⟨400, "文件名必须包含扩展名"⟩)
  else
    let up := upload_image_to_comfyui be image.content image.filename
    match up.2 with
    | .error e => some (up.1, .error e)
    | .ok uploaded_filename =>
      (build_workflow template prompt (some uploaded_filename) system_prompt).map
        fun wf =>
          let r := runJob be wf
          (up.1 ++ r.1, r.2)

/-! Concrete fixtures used to exercise the definitions on closed inputs. -/

/-- A small well-formed template: a text node "23", an image node "17",
and a save node "9". -/
def tmplNodes : List (String × JVal) :=
  [("23", .obj [("inputs", .obj [("text", .str "t")]), ("class_type", .str "CLIPTextEncode")]),
   ("17", .obj [("inputs", .obj [("image", .str "i.png")])]),
   ("9", .obj [("inputs", .obj [])])]

/-- An image entry as the backend reports it for node "9". -/
def imgA : Img := ⟨"out001.png", some "", some "output"⟩

/-- An image entry reported by a node other than "9", with the optional
fields absent. -/
def imgB : Img := ⟨"alt.png", none, none⟩

/-- A snapshot where node "3" (listed first) and node "9" both report an
image. -/
def outsBoth : List (String × List Img) := [("3", [imgB]), ("9", [imgA])]

/-- A history oracle that always returns `outsBoth`. -/
def histBoth : Nat → PollResp := fun _ => .entry outsBoth

/-- A history oracle whose requests always fail with a non-200 status. -/
def histNever : Nat → PollResp := fun _ => .badStatus

/-- A snapshot where node "9" is present with an empty image list while
node "3" reports an image. -/
def outsEmpty9 : List (String × List Img) := [("9", []), ("3", [imgB])]

/-- A history oracle that always returns `outsEmpty9`. -/
def histEmpty9 : Nat → PollResp := fun _ => .entry outsEmpty9

/-- A backend on which every call fails. -/
def beFail : Backend :=
  ⟨⟨500, "submit boom", ""⟩, fun _ _ => .badStatus,
   ⟨503, "upload boom", none⟩, fun _ _ _ => ⟨500, "view boom", []⟩⟩

/-- The end-to-end success scenario of the spec: submission yields
handle "abc123", the history reports node "9"'s image from tick 3 on,
and the view endpoint serves the bytes `[66, 1, 2]`. -/
def beOk : Backend :=
  { submit := ⟨200, "", "abc123"⟩
    history := fun pid t =>
      if pid = "abc123" ∧ 3 ≤ t then .entry [("9", [imgA])] else .noEntry
    upload := ⟨200, "", some "ring_00012.png"⟩
    view := fun fn _ _ =>
      if fn = "out001.png" then ⟨200, "", [66, 1, 2]⟩ else ⟨404, "missing", []⟩ }

/-! Helper lemmas. -/

theorem lookupA_setIn_self {α : Type} (l : List (String × α)) (k : String) (v : α) :
    lookupA (setIn l k v) k = some v := by
  induction l with
  | nil => simp [setIn, lookupA]
  | cons p rest ih =>
    obtain ⟨k1, v1⟩ := p
    by_cases h : k1 = k
    · simp [setIn, lookupA, h]
    · simp [setIn, lookupA, h, ih]

theorem lookupA_setIn_ne {α : Type} (l : List (String × α)) (k k2 : String) (v : α)
    (hne : k2 ≠ k) : lookupA (setIn l k v) k2 = lookupA l k2 := by
  induction l with
  | nil =>
    have h2 : k ≠ k2 := fun h3 => hne h3.symm
    simp [setIn, lookupA, h2]
  | cons p rest ih =>
    obtain ⟨k1, v1⟩ := p
    by_cases h : k1 = k
    · subst h
      have h2 : k1 ≠ k2 := fun h3 => hne h3.symm
      simp [setIn, lookupA, h2]
    · simp [setIn, lookupA, h, ih]

theorem build_workflow_eq (nodes n23 inp : List (String × JVal)) (prompt : String)
    (image_filename system_prompt : Option String)
    (h23 : lookupA nodes "23" = some (.obj n23))
    (hinp : lookupA n23 "inputs" = some (.obj inp))
    (himg : truthy image_filename = false) :
    build_workflow (.obj nodes) prompt image_filename system_prompt =
      some (.obj (setIn nodes "23" (.obj (setIn n23 "inputs"
        (.obj (setIn inp "text" (.str (combined_prompt system_prompt prompt)))))))) := by
  simp [build_workflow, setNestedInput, h23, hinp, himg]

theorem prefix_of_prefix_append_sep {α : Type} {c : α} {l s1 s2 : List α}
    (hc : c ∉ l) (h : l <+: s1 ++ c :: s2) : l <+: s1 := by
  induction s1 generalizing l with
  | nil =>
    cases l with
    | nil => exact List.nil_prefix
    | cons a l2 =>
      rw [List.nil_append] at h
      rcases List.cons_prefix_cons.mp h with ⟨rfl, -⟩
      exact absurd (List.mem_cons_self _ _) hc
  | cons b s1x ih =>
    cases l with
    | nil => exact List.nil_prefix
    | cons a l2 =>
      rw [List.cons_append] at h
      rcases List.cons_prefix_cons.mp h with ⟨rfl, h2⟩
      have hc2 : c ∉ l2 := fun hm => hc (List.mem_cons_of_mem _ hm)
      exact List.cons_prefix_cons.mpr ⟨rfl, ih hc2 h2⟩

theorem infix_append_sep {α : Type} {c : α} {l s2 : List α} (hc : c ∉ l) :
    ∀ s1 : List α, l <:+: s1 ++ c :: s2 → l <:+: s1 ∨ l <:+: s2 := by
  intro s1
  induction s1 with
  | nil =>
    intro h
    rw [List.nil_append] at h
    rcases List.infix_cons_iff.mp h with hp | hi
    · cases l with
      | nil => exact Or.inl List.nil_infix
      | cons a l2 =>
        rcases List.cons_prefix_cons.mp hp with ⟨rfl, -⟩
        exact absurd (List.mem_cons_self _ _) hc
    · exact Or.inr hi
  | cons b s1x ih =>
    intro h
    rw [List.cons_append] at h
    rcases List.infix_cons_iff.mp h with hp | hi
    · have hpre := @prefix_of_prefix_append_sep α c l (b :: s1x) s2 hc hp
      exact Or.inl hpre.isInfix
    · rcases ih hi with h1 | h2
      · exact Or.inl (List.infix_cons h1)
      · exact Or.inr h2

theorem infix_of_infix_sep2 {α : Type} {c : α} {l s1 s2 : List α} (hc : c ∉ l)
    (h : l <:+: s1 ++ c :: c :: s2) : l <:+: s1 ∨ l <:+: s2 := by
  rcases infix_append_sep hc s1 h with h1 | h2
  · exact Or.inl h1
  · rcases List.infix_cons_iff.mp h2 with hp | hi
    · cases l with
      | nil => exact Or.inr List.nil_infix
      | cons a l2 =>
        rcases List.cons_prefix_cons.mp hp with ⟨rfl, -⟩
        exact absurd (List.mem_cons_self _ _) hc
    · exact Or.inr hi

set_option maxRecDepth 4096 in
theorem default_newline_free : Char.ofNat 10 ∉ DEFAULT_SYSTEM_PROMPT.data := by decide

theorem data_sep2 (sp p : String) :
    (sp ++ "\n\n" ++ p).data = sp.data ++ Char.ofNat 10 :: Char.ofNat 10 :: p.data := by
  rw [String.data_append, String.data_append, List.append_assoc]
  rfl

theorem default_not_in_combined {sp p : String}
    (h1 : ¬ DEFAULT_SYSTEM_PROMPT.data <:+: sp.data)
    (h2 : ¬ DEFAULT_SYSTEM_PROMPT.data <:+: p.data) :
    ¬ DEFAULT_SYSTEM_PROMPT.data <:+: (sp ++ "\n\n" ++ p).data := by
  intro h
  rw [data_sep2] at h
  rcases infix_of_infix_sep2 default_newline_free h with hx | hx
  · exact h1 hx
  · exact h2 hx

theorem pollLoop_found {h : Nat → PollResp} {tick : Nat} {m : ImageMeta} (n : Nat)
    (hm : tickResult (h tick) = some m) :
    pollLoop h tick (n + 1) = ⟨1, 0, .ok m⟩ := by
  simp only [pollLoop, hm]

theorem pollLoop_notFound {h : Nat → PollResp} {tick : Nat} (n : Nat)
    (hm : tickResult (h tick) = none) :
    pollLoop h tick (n + 1) =
      ⟨(pollLoop h (tick + 1) n).requests + 1,
       (pollLoop h (tick + 1) n).sleeps + 1,
       (pollLoop h (tick + 1) n).result⟩ := by
  simp only [pollLoop, hm]

theorem pollLoop_timeout {h : Nat → PollResp} (hn : ∀ t, tickResult (h t) = none) :
    ∀ n tick, pollLoop h tick n = ⟨n, n, .error pollTimeoutError⟩ := by
  intro n
  induction n with
  | zero => intro tick; rfl
  | succ k ih =>
    intro tick
    rw [pollLoop_notFound k (hn tick), ih (tick + 1)]
theorem combined_prompt_none (p : String) :
    combined_prompt none p = DEFAULT_SYSTEM_PROMPT ++ "\n\n" ++ p := rfl

theorem combined_prompt_some {sp : String} (p : String) (hsp : sp ≠ "") :
    combined_prompt (some sp) p = sp ++ "\n\n" ++ p := by
  have ht : truthy (some sp) = true := by simp [truthy, bne_iff_ne, hsp]
  simp [combined_prompt, ht, Option.getD]

theorem injectedText_build (nodes n23 inp : List (String × JVal)) (prompt : String)
    (sp : Option String)
    (h23 : lookupA nodes "23" = some (.obj n23))
    (hinp : lookupA n23 "inputs" = some (.obj inp)) :
    injectedText (build_workflow (.obj nodes) prompt none sp) =
      some (combined_prompt sp prompt) := by
  rw [build_workflow_eq nodes n23 inp prompt none sp h23 hinp rfl]
  simp only [injectedText, Option.some_bind, lookupA_setIn_self]

/-! Claim theorems. -/

/-- C1: with no image reference supplied, `build_workflow` returns the
template in which only node "23"'s `inputs.text` field is replaced (with
the combined prompt): every other node is deep-equal to the template's,
every other field of node "23" and of its `inputs` object is deep-equal
to the template's, and repeated calls with the same inputs yield
deep-equal results.  The shared template value itself is untouched: the
function deep-copies it (`json.loads(json.dumps(...))` is the identity
on JSON values) and rebuilds the copy, never the original. -/
theorem claim_C1 {nodes n23 inp : List (String × JVal)} (prompt : String)
    (system_prompt : Option String)
    (h23 : lookupA nodes "23" = some (.obj n23))
    (hinp : lookupA n23 "inputs" = some (.obj inp)) :
    ∃ nodes2 n23b inp2,
      build_workflow (.obj nodes) prompt none system_prompt = some (.obj nodes2) ∧
      (∀ k, k ≠ "23" → lookupA nodes2 k = lookupA nodes k) ∧
      lookupA nodes2 "23" = some (.obj n23b) ∧
      (∀ k, k ≠ "inputs" → lookupA n23b k = lookupA n23 k) ∧
      lookupA n23b "inputs" = some (.obj inp2) ∧
      (∀ k, k ≠ "text" → lookupA inp2 k = lookupA inp k) ∧
      lookupA inp2 "text" = some (.str (combined_prompt system_prompt prompt)) ∧
      build_workflow (.obj nodes) prompt none system_prompt =
        build_workflow (.obj nodes) prompt none system_prompt := by
  refine ⟨setIn nodes "23" (.obj (setIn n23 "inputs"
      (.obj (setIn inp "text" (.str (combined_prompt system_prompt prompt)))))),
    setIn n23 "inputs" (.obj (setIn inp "text" (.str (combined_prompt system_prompt prompt)))),
    setIn inp "text" (.str (combined_prompt system_prompt prompt)),
    build_workflow_eq nodes n23 inp prompt none system_prompt h23 hinp rfl,
    fun k hk => lookupA_setIn_ne nodes "23" k _ hk,
    lookupA_setIn_self nodes "23" _,
    fun k hk => lookupA_setIn_ne n23 "inputs" k _ hk,
    lookupA_setIn_self n23 "inputs" _,
    fun k hk => lookupA_setIn_ne inp "text" k _ hk,
    lookupA_setIn_self inp "text" _,
    rfl⟩

/-- C1 witness: the frame property instantiated on the concrete template
`tmplNodes` with prompt "hello" and no system prompt. -/
theorem claim_C1_witness :
    ∃ nodes2 n23b inp2,
      build_workflow (.obj tmplNodes) "hello" none none = some (.obj nodes2) ∧
      (∀ k, k ≠ "23" → lookupA nodes2 k = lookupA tmplNodes k) ∧
      lookupA nodes2 "23" = some (.obj n23b) ∧
      (∀ k, k ≠ "inputs" →
        lookupA n23b k =
          lookupA [("inputs", JVal.obj [("text", JVal.str "t")]),
                   ("class_type", JVal.str "CLIPTextEncode")] k) ∧
      lookupA n23b "inputs" = some (.obj inp2) ∧
      (∀ k, k ≠ "text" → lookupA inp2 k = lookupA [("text", JVal.str "t")] k) ∧
      lookupA inp2 "text" = some (.str (combined_prompt none "hello")) ∧
      build_workflow (.obj tmplNodes) "hello" none none =
        build_workflow (.obj tmplNodes) "hello" none none :=
  claim_C1 "hello" none rfl rfl

/-- C2: when `system_prompt` is omitted (`None`), the text written into
node "23"'s input field is exactly the default persona text, a blank
line (`"\n\n"`, i.e. two newline characters — second conjunct), then
the user prompt, verbatim. -/
theorem claim_C2 {nodes n23 inp : List (String × JVal)} (prompt : String)
    (h23 : lookupA nodes "23" = some (.obj n23))
    (hinp : lookupA n23 "inputs" = some (.obj inp)) :
    injectedText (build_workflow (.obj nodes) prompt none none) =
      some (DEFAULT_SYSTEM_PROMPT ++ "\n\n" ++ prompt) ∧
    "\n\n".data = [Char.ofNat 10, Char.ofNat 10] := by
  refine ⟨?_, rfl⟩
  rw [injectedText_build nodes n23 inp prompt none h23 hinp, combined_prompt_none]

/-- C2 witness: the default-persona injection on the concrete template
with prompt "hello". -/
theorem claim_C2_witness :
    injectedText (build_workflow (.obj tmplNodes) "hello" none none) =
      some (DEFAULT_SYSTEM_PROMPT ++ "\n\n" ++ "hello") ∧
    "\n\n".data = [Char.ofNat 10, Char.ofNat 10] :=
  claim_C2 "hello" rfl rfl

/-- C3 (amended): a supplied system prompt replaces the default persona
text only when it is non-empty (Python's `if system_prompt:` treats the
empty string as absent).  For every non-empty `system_prompt`, the
injected text is the supplied system prompt, a blank line, then the user
prompt; consequently the default persona text occurs in the injected
text only if it already occurs in the supplied system prompt or in the
user prompt. -/
theorem claim_C3 {nodes n23 inp : List (String × JVal)} (prompt sp : String)
    (h23 : lookupA nodes "23" = some (.obj n23))
    (hinp : lookupA n23 "inputs" = some (.obj inp))
    (hsp : sp ≠ "") :
    injectedText (build_workflow (.obj nodes) prompt none (some sp)) =
      some (sp ++ "\n\n" ++ prompt) ∧
    (¬ DEFAULT_SYSTEM_PROMPT.data <:+: sp.data →
     ¬ DEFAULT_SYSTEM_PROMPT.data <:+: prompt.data →
     ¬ DEFAULT_SYSTEM_PROMPT.data <:+: (sp ++ "\n\n" ++ prompt).data) := by
  refine ⟨?_, default_not_in_combined⟩
  rw [injectedText_build nodes n23 inp prompt (some sp) h23 hinp,
    combined_prompt_some prompt hsp]

set_option maxRecDepth 8192 in
/-- C3 witness: the amended property instantiated with the non-empty
system prompt "SYS" and prompt "hi" on the concrete template, the
non-occurrence implications discharged by computation. -/
theorem claim_C3_witness :
    injectedText (build_workflow (.obj tmplNodes) "hi" none (some "SYS")) =
      some ("SYS" ++ "\n\n" ++ "hi") ∧
    ¬ DEFAULT_SYSTEM_PROMPT.data <:+: ("SYS" ++ "\n\n" ++ "hi").data := by
  have h := @claim_C3 tmplNodes _ _ "hi" "SYS" rfl rfl (by decide)
  refine ⟨h.1, h.2 ?_ ?_⟩
  · intro hx
    exact absurd hx.length_le (by decide)
  · intro hx
    exact absurd hx.length_le (by decide)

set_option maxRecDepth 8192 in
/-- C3 counterexample: the claim quantifies over every supplied
`system_prompt` "including the empty string", but with `system_prompt`
equal to `""` the code's truthiness test falls back to the default
persona text, which therefore appears (as a prefix) in the injected
text, and the injected text differs from the claimed
`system_prompt ++ blank line ++ prompt`. -/
theorem claim_C3_counterexample :
    injectedText (build_workflow (.obj tmplNodes) "hi" none (some "")) =
      some (DEFAULT_SYSTEM_PROMPT ++ "\n\n" ++ "hi") ∧
    DEFAULT_SYSTEM_PROMPT.data <:+: (DEFAULT_SYSTEM_PROMPT ++ "\n\n" ++ "hi").data ∧
    injectedText (build_workflow (.obj tmplNodes) "hi" none (some "")) ≠
      some ("" ++ "\n\n" ++ "hi") :=
  ⟨rfl, ⟨[], ("\n\n" ++ "hi").data, by simp⟩, by decide⟩

/-- C4: in a status snapshot where the handle is present and both node
"9" and another node (here node "3") report at least one image, the poll
returns — on that very tick, after a single request and no sleep — the
descriptor built from the first image of node "9": node "9"'s images
take priority over every other node's. -/
theorem claim_C4 {outputs : List (String × List Img)} {img : Img} {rest : List Img}
    {img3 : Img} {rest3 : List Img} (h : Nat → PollResp)
    (h0 : h 0 = .entry outputs)
    (h9 : lookupA outputs "9" = some (img :: rest))
    (_h3 : lookupA outputs "3" = some (img3 :: rest3)) :
    wait_for_image_meta h 120 = ⟨1, 0, .ok (image_to_meta img)⟩ := by
  have h120 : (120 : Nat) = 119 + 1 := rfl
  rw [wait_for_image_meta, h120]
  exact pollLoop_found 119 (by simp [tickResult, h0, checkOutputs, h9])

/-- C4 witness: on the snapshot `outsBoth`, where node "3" is listed
before node "9" and both report an image, the poll returns node "9"'s
image `out001.png`. -/
theorem claim_C4_witness :
    wait_for_image_meta histBoth 120 = ⟨1, 0, .ok (image_to_meta imgA)⟩ :=
  claim_C4 histBoth rfl rfl rfl

/-- C5: if the backend never reports an image (every tick is a non-200
status, a snapshot without the handle, or a snapshot without images),
the poll performs exactly its tick budget of status requests — 120 at
the call sites' default — each followed by a one-second sleep, and then
fails with the fixed 502 timeout message; it neither fails earlier nor
polls further, and no descriptor is produced. -/
theorem claim_C5 {h : Nat → PollResp} (hn : ∀ t, tickResult (h t) = none) :
    (∀ n, wait_for_image_meta h n =
      ⟨n, n, .error ⟨502, "ComfyUI 超时，未拿到输出图片"⟩⟩) ∧
    wait_for_image_meta h 120 =
      ⟨120, 120, .error ⟨502, "ComfyUI 超时，未拿到输出图片"⟩⟩ :=
  ⟨fun n => pollLoop_timeout hn n 0, pollLoop_timeout hn 120 0⟩

/-- C5 witness: a backend whose history requests always fail polls 120
times, sleeps 120 seconds, and raises the fixed 502 timeout. -/
theorem claim_C5_witness :
    wait_for_image_meta histNever 120 =
      ⟨120, 120, .error ⟨502, "ComfyUI 超时，未拿到输出图片"⟩⟩ :=
  (@claim_C5 histNever (fun _ => rfl)).2

/-- C10: when node "9" is present in the snapshot but reports an empty
image list while some other node has an image, the poll does not keep
waiting: the first `for` loop over node "9"'s images falls through, and
the second loop returns, on that same tick (one request, no sleep), the
descriptor of the first image of the first node in reported order that
has any. -/
theorem claim_C10 {outputs : List (String × List Img)} {img : Img} (h : Nat → PollResp)
    (h0 : h 0 = .entry outputs)
    (h9 : lookupA outputs "9" = some [])
    (hfirst : firstImage outputs = some img) :
    wait_for_image_meta h 120 = ⟨1, 0, .ok (image_to_meta img)⟩ := by
  have h120 : (120 : Nat) = 119 + 1 := rfl
  rw [wait_for_image_meta, h120]
  exact pollLoop_found 119 (by simp [tickResult, h0, checkOutputs, h9, hfirst])

/-- C10 witness: on the snapshot `outsEmpty9` — node "9" present with no
images, node "3" with one — the poll immediately returns node "3"'s
image, with the descriptor defaults `subfolder = ""` and
`type = "output"` applied. -/
theorem claim_C10_witness :
    wait_for_image_meta histEmpty9 120 = ⟨1, 0, .ok (image_to_meta imgB)⟩ :=
  claim_C10 histEmpty9 rfl rfl rfl

/-- C6: a non-success (non-200) backend response makes each backend
operation fail with a 502 error whose message embeds the backend's raw
response text (the last three conjuncts state the embedding as substring
containment), and the operation's trace shows exactly one request with
nothing after it: the upload makes its single POST and raises; a failed
submission ends `txt2img` with a trace containing only the submission —
no poll, no fetch, no retry; the image fetch makes its single GET and
raises. -/
theorem claim_C6 (be : Backend) (image_bytes : List Nat) (filename : String)
    (meta : ImageMeta) (template : JVal) (prompt : String) (sp : Option String) (w : JVal)
    (hext : lowerAscii (pathSuffix filename) ∈ allowed_extensions)
    (hup : be.upload.status ≠ 200)
    (hsub : be.submit.status ≠ 200)
    (hview : (be.view meta.filename meta.subfolder meta.type).status ≠ 200)
    (hbw : build_workflow template prompt none sp = some w) :
    upload_image_to_comfyui be image_bytes filename =
      ([.uploadImage ⟨"image", filename, "image/jpeg", image_bytes⟩],
       .error ⟨502, "上传图像失败: " ++ be.upload.text⟩) ∧
    txt2img template be prompt sp =
      some ([.submitPrompt w], .error ⟨502, "ComfyUI 提交失败: " ++ be.submit.text⟩) ∧
    download_image_bytes be meta =
      ([.viewGet meta.filename meta.subfolder meta.type],
       .error ⟨502, "下载图片失败: " ++ (be.view meta.filename meta.subfolder meta.type).text⟩) ∧
    be.upload.text.data <:+: ("上传图像失败: " ++ be.upload.text).data ∧
    be.submit.text.data <:+: ("ComfyUI 提交失败: " ++ be.submit.text).data ∧
    (be.view meta.filename meta.subfolder meta.type).text.data <:+:
      ("下载图片失败: " ++ (be.view meta.filename meta.subfolder meta.type).text).data := by
  refine ⟨?_, ?_, ?_, ?_, ?_, ?_⟩
  · simp [upload_image_to_comfyui, hext, hup]
  · simp [txt2img, hbw, runJob, hsub]
  · simp [download_image_bytes, hview]
  · rw [String.data_append]
    have hsfx := List.suffix_append "上传图像失败: ".data be.upload.text.data
    exact hsfx.isInfix
  · rw [String.data_append]
    have hsfx := List.suffix_append "ComfyUI 提交失败: ".data be.submit.text.data
    exact hsfx.isInfix
  · rw [String.data_append]
    have hsfx := List.suffix_append "下载图片失败: ".data
      (be.view meta.filename meta.subfolder meta.type).text.data
    exact hsfx.isInfix

/-- C6 witness: on the all-failing backend `beFail`, the upload,
submission and fetch each stop after their single request and surface
502 errors embedding the backend's texts. -/
theorem claim_C6_witness :
    ∃ w, build_workflow (.obj tmplNodes) "p" none none = some w ∧
    (upload_image_to_comfyui beFail [7] "photo.png" =
      ([.uploadImage ⟨"image", "photo.png", "image/jpeg", [7]⟩],
       .error ⟨502, "上传图像失败: upload boom"⟩) ∧
     txt2img (.obj tmplNodes) beFail "p" none =
      some ([.submitPrompt w], .error ⟨502, "ComfyUI 提交失败: submit boom"⟩) ∧
     download_image_bytes beFail ⟨"x.png", "", "output"⟩ =
      ([.viewGet "x.png" "" "output"],
       .error ⟨502, "下载图片失败: view boom"⟩) ∧
     "upload boom".data <:+: "上传图像失败: upload boom".data ∧
     "submit boom".data <:+: "ComfyUI 提交失败: submit boom".data ∧
     "view boom".data <:+: "下载图片失败: view boom".data) :=
  ⟨_, rfl, claim_C6 beFail [7] "photo.png" ⟨"x.png", "", "output"⟩
    (.obj tmplNodes) "p" none _ (by decide) (by decide) (by decide) (by decide) rfl⟩

/-- C9: whatever the file's extension (any allow-listed one) and
whatever content type the client declared — the function never even
receives the declared type — the multipart part posted to the backend
declares `content_type="image/jpeg"`. -/
theorem claim_C9 (be : Backend) (image_bytes : List Nat) (filename : String)
    (hext : lowerAscii (pathSuffix filename) ∈ allowed_extensions) :
    (upload_image_to_comfyui be image_bytes filename).1 =
      [.uploadImage ⟨"image", filename, "image/jpeg", image_bytes⟩] := by
  by_cases h : be.upload.status = 200 <;>
    simp [upload_image_to_comfyui, hext, h]

/-- C9 witness: a `.png` file is posted with the part content type
`image/jpeg`. -/
theorem claim_C9_witness :
    (upload_image_to_comfyui beFail [9, 9] "picture.png").1 =
      [.uploadImage ⟨"image", "picture.png", "image/jpeg", [9, 9]⟩] :=
  claim_C9 beFail [9, 9] "picture.png" (by decide)

/-- C7: `/img2img` input validation fails with a 400 error before any
backend call (the trace is empty) when the declared content type does
not begin with "image/", when the filename is empty or has no dot, or
when the (case-insensitively compared) extension is outside the
allow-list; moreover ".gif" is outside the allow-list while "photo.JPG"
passes the extension check. -/
theorem claim_C7 (template : JVal) (be : Backend) (prompt : String) (sp : Option String)
    (f : UploadFile) :
    (startsWithStr f.content_type "image/" = false →
      img2img template be prompt f sp = some ([], .error ⟨400, "文件必须是图像类型"⟩)) ∧
    (startsWithStr f.content_type "image/" = true →
      (f.filename = "" ∨ containsChar f.filename (Char.ofNat 46) = false) →
      img2img template be prompt f sp = some ([], .error ⟨400, "文件名必须包含扩展名"⟩)) ∧
    (startsWithStr f.content_type "image/" = true →
      f.filename ≠ "" →
      containsChar f.filename (Char.ofNat 46) = true →
      lowerAscii (pathSuffix f.filename) ∉ allowed_extensions →
      img2img template be prompt f sp =
        some ([], .error ⟨400, "不支持的文件类型: " ++ lowerAscii (pathSuffix f.filename)⟩)) ∧
    lowerAscii (pathSuffix "photo.gif") ∉ allowed_extensions ∧
    lowerAscii (pathSuffix "photo.JPG") ∈ allowed_extensions := by
  refine ⟨?_, ?_, ?_, by decide, by decide⟩
  · intro hct
    simp [img2img, hct]
  · intro hct hfn
    simp [img2img, hct, hfn]
  · intro hct hfn hdot hbad
    simp [img2img, upload_image_to_comfyui, hct, hfn, hdot, hbad]

/-- C7 witness: "photo.gif" (declared type "image/gif") is rejected with
a 400 and an empty backend trace — no network call — and "photo.JPG"
passes the extension check. -/
theorem claim_C7_witness :
    img2img (.obj tmplNodes) beFail "p" ⟨"photo.gif", "image/gif", [0]⟩ none =
      some ([], .error ⟨400, "不支持的文件类型: .gif"⟩) ∧
    lowerAscii (pathSuffix "photo.JPG") ∈ allowed_extensions := by
  have h := claim_C7 (.obj tmplNodes) beFail "p" none ⟨"photo.gif", "image/gif", [0]⟩
  exact ⟨h.2.2.1 (by decide) (by decide) (by decide) (by decide), h.2.2.2.2⟩

/-- C8: on the success path — submission accepted, the poll's result a
descriptor `m`, the view request returning status 200 with body `B` —
the HTTP response handed back by `txt2img` has status 200, media type
`image/png`, Content-Disposition `inline; filename="<m.filename>"`, and
a body byte-for-byte equal to `B`. -/
theorem claim_C8 {template w : JVal} (be : Backend) (prompt : String) (sp : Option String)
    {m : ImageMeta} {B : List Nat} {vtext : String}
    (hbw : build_workflow template prompt none sp = some w)
    (hs : be.submit.status = 200)
    (hpoll : (wait_for_image_meta (be.history be.submit.prompt_id) 120).result = .ok m)
    (hview : be.view m.filename m.subfolder m.type = ⟨200, vtext, B⟩) :
    ∃ trace, txt2img template be prompt sp =
      some (trace, .ok ⟨200, "image/png",
        "inline; filename=\"" ++ m.filename ++ "\"", B⟩) := by
  refine ⟨.submitPrompt w ::
      (List.replicate (wait_for_image_meta (be.history be.submit.prompt_id) 120).requests
        (BackendCall.historyGet be.submit.prompt_id) ++
       [.viewGet m.filename m.subfolder m.type]), ?_⟩
  simp only [txt2img, hbw, Option.map_some', runJob, hs, ne_eq, not_true_eq_false,
    if_false, hpoll, download_image_bytes, hview]

/-- C8 witness: the spec's end-to-end scenario on the backend `beOk`
(handle "abc123", node "9" reporting `out001.png` from tick 3, view
bytes `[66, 1, 2]`): the caller receives a 200 `image/png` response
with Content-Disposition filename "out001.png" and body `[66, 1, 2]`. -/
theorem claim_C8_witness :
    ∃ trace, txt2img (.obj tmplNodes) beOk "a red jade dragon pendant" none =
      some (trace, .ok ⟨200, "image/png",
        "inline; filename=\"out001.png\"", [66, 1, 2]⟩) :=
  @claim_C8 (.obj tmplNodes) _ beOk "a red jade dragon pendant" none
    ⟨"out001.png", "", "output"⟩ [66, 1, 2] "" rfl rfl rfl rfl

end Fastimg
